import Mathlib

/-!
Verification of the signal-detection core of `tradingbot.py`.

The engine turns three OHLC candle series (15m trend series, 5m risk
series, 1m entry series) into an optional breakout trade signal.  We embed
the analytical core shallowly: pandas DataFrames become rectangular records
of rational-valued columns, pandas/pandas_ta indicator calls become pure
Lean functions on those columns, and the three distinct `return None`
sites of `analyze_volatility` (insufficient data / no signal) become a
discriminated `Outcome`, mirroring the distinct log messages the code
emits at each site.  Prices are modelled as exact rationals; the Python
floats are decimal literals and arithmetic on them, for which ℚ is the
standard idealisation.
-/

namespace Tale

/-- A pandas DataFrame holding one fetched candle series: the `high`,
`low`, `close` price columns (the code never reads `open`), plus the
indicator columns that `determine_trend` and `analyze_volatility` attach
in place (`data['EMA20'] = ...`, `df['ATR'] = ...`).  Indicator columns
hold `Option ℚ` cells, `none` standing for pandas `NaN`.  The length
fields record that a DataFrame is rectangular. -/
structure DataFrame where
  high : List ℚ
  low : List ℚ
  close : List ℚ
  ema20 : Option (List (Option ℚ)) := none
  ema50 : Option (List (Option ℚ)) := none
  atr : Option (List (Option ℚ)) := none
  hlen : high.length = close.length
  llen : low.length = close.length

/-- `len(df)`: the number of rows of the frame. -/
def DataFrame.nrows (d : DataFrame) : ℕ := d.close.length

/-- `series.iloc[-1]` on an indicator column: the last cell, `none` when
the column is empty or its last cell is NaN. -/
def lastCell (col : List (Option ℚ)) : Option ℚ := col.getLast?.bind id

/-- Read the last cell of an optionally-present indicator column as a
plain rational.  Every caller in `analyze_volatility` sits behind a
length guard that makes the cell a defined number, so the `0` default is
never observable there. -/
def lastCellD (col : Option (List (Option ℚ))) : ℚ := (lastCell (col.getD [])).getD 0

/-- One step of the exponential moving average recurrence
`ema = prev + alpha * (x - prev)`; returns the value after consuming the
whole list. -/
def emaFrom (a : ℚ) : ℚ → List ℚ → ℚ
  | e, [] => e
  | e, x :: xs => emaFrom a (e + a * (x - e)) xs

/-- All intermediate values of the EMA recurrence, starting with the seed
itself. -/
def emaScan (a : ℚ) : ℚ → List ℚ → List ℚ
  | e, [] => [e]
  | e, x :: xs => e :: emaScan a (e + a * (x - e)) xs

/-- `pandas_ta.ema(values, w)`: the first `w - 1` outputs are NaN, the
output at index `w - 1` is the simple average of the first `w` inputs
(pandas_ta seeds the EMA with an SMA), and each later output follows the
recurrence with smoothing factor `2 / (w + 1)` (`ewm(span=w,
adjust=False)`).  When the input is shorter than the period the whole
column is NaN (that case sits behind the callers' length guards). -/
def emaSeries (xs : List ℚ) (w : ℕ) : List (Option ℚ) :=
  if xs.length < w ∨ w = 0 then List.replicate xs.length none
  else
    let a : ℚ := 2 / ((w : ℚ) + 1)
    let seed : ℚ := (xs.take w).sum / (w : ℚ)
    List.replicate (w - 1) none ++ (emaScan a seed (xs.drop w)).map some

/-- The most recent EMA value, i.e. `ta.ema(xs, w).iloc[-1]`. -/
def emaLast (xs : List ℚ) (w : ℕ) : Option ℚ := lastCell (emaSeries xs w)

/-- Float comparison `a > b` on two indicator cells; comparisons with NaN
are false in pandas. -/
def gtCell : Option ℚ → Option ℚ → Bool
  | some a, some b => decide (b < a)
  | _, _ => false

/-- `determine_trend` (tradingbot.py lines 132-137).  Returns the trend
label and the frame as it is left behind: the function mutates its
argument in place by attaching the `EMA20` and `EMA50` columns before
comparing their last values. -/
def determine_trend (data : DataFrame) : String × DataFrame :=
  if data.close.length < 50 then ("N/A", data)
  else
    let e20 := emaSeries data.close 20
    let e50 := emaSeries data.close 50
    (if gtCell (lastCell e20) (lastCell e50) then "Up trend" else "Down trend",
     { data with ema20 := some e20, ema50 := some e50 })

/-- Per-bar true range `max(high - low, |high - prevClose|, |low -
prevClose|)`, accumulated along the series; the first bar has no previous
close and produces no entry (pandas_ta sets it to NaN). -/
def trueRangesAux : ℚ → List (ℚ × ℚ × ℚ) → List ℚ
  | _, [] => []
  | pc, (h, l, c) :: rest =>
      max (h - l) (max |h - pc| |l - pc|) :: trueRangesAux c rest

/-- The true-range values of bars `1 .. n-1` of a series. -/
def trueRanges (high low close : List ℚ) : List ℚ :=
  match high.zip (low.zip close) with
  | [] => []
  | (_, _, c0) :: rest => trueRangesAux c0 rest

/-- Running values of `ewm(alpha=a, adjust=True).mean()`: after `m`
inputs the value is `Σ (1-a)^(m-1-i) * x_i / Σ (1-a)^j`, maintained by
the pair recurrence `num' = (1-a)*num + x`, `den' = (1-a)*den + 1`. -/
def ewmAdjScanAux (a : ℚ) : ℚ → ℚ → List ℚ → List ℚ
  | _, _, [] => []
  | num, den, x :: xs =>
      let n := (1 - a) * num + x
      let d := (1 - a) * den + 1
      n / d :: ewmAdjScanAux a n d xs

/-- `pandas_ta.atr(high, low, close, w)`: Wilder smoothing of the true
range, i.e. `true_range.ewm(alpha=1/w, min_periods=w).mean()`.  Cells are
NaN until `w` true-range observations exist (the first bar's true range
is itself NaN), so indices `0 .. w-1` are `none` and index `t ≥ w` holds
the adjusted EWM of the true ranges of bars `1 .. t`. -/
def atrSeries (high low close : List ℚ) (w : ℕ) : List (Option ℚ) :=
  if high.length ≤ w then List.replicate high.length none
  else
    let trs := trueRanges high low close
    let vals := ewmAdjScanAux (1 / (w : ℚ)) 0 0 trs
    List.replicate w none ++ (vals.drop (w - 1)).map some

/-- `df['ATR'] = ta.atr(df['high'], df['low'], df['close'], 14)`
(tradingbot.py lines 161-162): the in-place attachment of the ATR(14)
column. -/
def attachATR (d : DataFrame) : DataFrame :=
  { d with atr := some (atrSeries d.high d.low d.close 14) }

/-- The latest ATR(14) value of a frame, `df['ATR'].iloc[-1]` read after
the attachment. -/
def atrLastOf (d : DataFrame) : ℚ := lastCellD (attachATR d).atr

/-- `series.rolling(w).min().iloc[-1]`: the minimum over the trailing
window of the last `w` entries (the window ends at the very last bar),
`none`/NaN when fewer than `w` entries exist. -/
def rollingMinLast (xs : List ℚ) (w : ℕ) : Option ℚ :=
  if w ≤ xs.length then (xs.drop (xs.length - w)).min? else none

/-- `series.rolling(w).max().iloc[-1]`: the maximum over the trailing
window of the last `w` entries. -/
def rollingMaxLast (xs : List ℚ) (w : ℕ) : Option ℚ :=
  if w ≤ xs.length then (xs.drop (xs.length - w)).max? else none

/-- `support = df_15m['low'].rolling(50).min().iloc[-1]` (line 167); the
`analyze_volatility` guard `len(df_15m) >= 100` makes the value defined. -/
def supportD (d : DataFrame) : ℚ := (rollingMinLast d.low 50).getD 0

/-- `resistance = df_15m['high'].rolling(50).max().iloc[-1]` (line 168). -/
def resistanceD (d : DataFrame) : ℚ := (rollingMaxLast d.high 50).getD 0

/-- `buffer = 0.005 * (resistance - support)` (line 170). -/
def bufferD (d : DataFrame) : ℚ := (5 / 1000) * (resistanceD d - supportD d)

/-- `close.pct_change().dropna()`: the relative change `(b - a) / a`
between each pair of consecutive closes; the first (undefined) change is
never produced.  A zero close would give pandas an infinite or NaN
change; ℚ division by zero yields 0 instead, so theorems about the
change count assume nonzero closes. -/
def pctChanges : List ℚ → List ℚ
  | [] => []
  | [_] => []
  | a :: b :: rest => (b - a) / a :: pctChanges (b :: rest)

/-- Python `f"{x:.1f}"` for the nonnegative percentages produced here:
the value rounded to one decimal digit, printed as `int.digit`.  (At an
exact tie Python rounds the underlying binary float half-to-even; ties do
not occur for the generic values at play and we round half-up.) -/
def fmt1 (x : ℚ) : String :=
  let n : ℤ := ⌊x * 10 + 1 / 2⌋
  s!"{n / 10}.{(n % 10).natAbs}"

/-- The fraction of strictly positive percentage changes, as a percentage
string with one decimal digit (tradingbot.py lines 129-130). -/
def winrateCore (closes : List ℚ) : String :=
  let changes := pctChanges closes
  fmt1 ((((changes.filter fun x => decide (0 < x)).length : ℚ) / (changes.length : ℚ)) * 100) ++ "%"

/-- `calculate_winrate` (tradingbot.py lines 126-130). -/
def calculate_winrate (data : DataFrame) : String :=
  if data.nrows < 100 then "N/A" else winrateCore data.close

/-- `round(x, 5)`: the price rounded to 5 fractional digits.  (Python
rounds the binary float half-to-even at exact ties; we round half-up,
which agrees everywhere else.) -/
def round5 (q : ℚ) : ℚ := ((⌊q * 100000 + 1 / 2⌋ : ℤ) : ℚ) / 100000

/-- The engine's output signal, the dict literal of tradingbot.py lines
190-199 (field names follow the dict keys; `signal` is the direction). -/
structure Signal where
  symbol : String
  signal : String
  winrate : String
  trend : String
  entry : ℚ
  sl : ℚ
  tp1 : ℚ
  tp2 : ℚ
deriving DecidableEq, Repr

/-- The analysis outcome.  `analyze_volatility` returns Python `None`
both when a series fails its length check and when no breakout condition
holds, but the two cases are distinct return sites with distinct log
messages ("Error: Insufficient ..." vs "No signal: ..."); we keep them
apart as the spec's `InsufficientData` / `NoOpportunity` outcomes. -/
inductive Outcome where
  | insufficientData (stage : String)
  | noOpportunity
  | signal (s : Signal)
deriving DecidableEq, Repr

/-- `true` exactly on the insufficient-data outcome. -/
def Outcome.isInsufficientData : Outcome → Bool
  | .insufficientData _ => true
  | _ => false

/-- The analytical core of `analyze_volatility` (tradingbot.py lines
139-203).  The three candle frames stand for the already-fetched 15m, 5m
and 1m series; the fetch layer is out of scope.  Mirrors the source
statement for statement: length guards, in-place ATR attachment, latest
ATRs, rolling support/resistance, last entry close, buffer, trend label
(computed on the ATR-mutated 15m frame), breakout rule, target
computation, and rounding of the four price fields. -/
def analyze_volatility (symbol : String) (df_15m df_5m df_1m : DataFrame) : Outcome :=
  if df_15m.nrows < 100 then Outcome.insufficientData "15m"
  else if df_5m.nrows < 50 then Outcome.insufficientData "5m"
  else if df_1m.nrows < 10 then Outcome.insufficientData "1m"
  else
    let d5 := attachATR df_5m
    let d15 := attachATR df_15m
    let atr_sl := lastCellD d5.atr
    let atr_tp := lastCellD d15.atr
    let support := supportD d15
    let resistance := resistanceD d15
    let last_close := df_1m.close.getLastD 0
    let buffer := bufferD d15
    let tr := (determine_trend d15).1
    let d15t := (determine_trend d15).2
    if last_close > resistance + buffer ∧ tr = "Up trend" then
      Outcome.signal ⟨symbol, "BUY", calculate_winrate d15t, tr,
        round5 last_close, round5 (last_close - atr_sl * 3),
        round5 (last_close + atr_tp * 1), round5 (last_close + atr_tp * 2)⟩
    else if last_close < support - buffer ∧ tr = "Down trend" then
      Outcome.signal ⟨symbol, "SELL", calculate_winrate d15t, tr,
        round5 last_close, round5 (last_close + atr_sl * 3),
        round5 (last_close - atr_tp * 1), round5 (last_close - atr_tp * 2)⟩
    else Outcome.noOpportunity

/-- The direction of the outcome's signal, if any. -/
def Outcome.direction? : Outcome → Option String
  | .signal s => some s.signal
  | _ => none

/-- A completely flat fetched series: `n` candles whose high, low and
close all equal `v`, with no indicator columns attached yet. -/
def flat (n : ℕ) (v : ℚ) : DataFrame :=
  ⟨List.replicate n v, List.replicate n v, List.replicate n v, none, none, none, by simp, by simp⟩

theorem attachATR_high (d : DataFrame) : (attachATR d).high = d.high := rfl

theorem attachATR_low (d : DataFrame) : (attachATR d).low = d.low := rfl

theorem attachATR_close (d : DataFrame) : (attachATR d).close = d.close := rfl

theorem attachATR_nrows (d : DataFrame) : (attachATR d).nrows = d.nrows := rfl

theorem supportD_attach (d : DataFrame) : supportD (attachATR d) = supportD d := rfl

theorem resistanceD_attach (d : DataFrame) : resistanceD (attachATR d) = resistanceD d := rfl

theorem bufferD_attach (d : DataFrame) : bufferD (attachATR d) = bufferD d := rfl

/-- The trend label only reads the close column. -/
theorem determine_trend_fst (d e : DataFrame) (h : d.close = e.close) :
    (determine_trend d).1 = (determine_trend e).1 := by
  by_cases hc : e.close.length < 50 <;> simp [determine_trend, h, hc]

/-- `determine_trend` never touches the close column of the frame it
mutates. -/
theorem determine_trend_snd_close (d : DataFrame) : ((determine_trend d).2).close = d.close := by
  by_cases hc : d.close.length < 50 <;> simp [determine_trend, hc]

theorem determine_trend_snd_high (d : DataFrame) : ((determine_trend d).2).high = d.high := by
  by_cases hc : d.close.length < 50 <;> simp [determine_trend, hc]

theorem determine_trend_snd_low (d : DataFrame) : ((determine_trend d).2).low = d.low := by
  by_cases hc : d.close.length < 50 <;> simp [determine_trend, hc]

/-- The win-rate only reads the close column. -/
theorem calculate_winrate_close (d e : DataFrame) (h : d.close = e.close) :
    calculate_winrate d = calculate_winrate e := by
  simp [calculate_winrate, DataFrame.nrows, h]

/-- Case analysis of a produced signal: the guards passed, the auxiliary
fields are as computed, and the breakout branch taken determines the
direction, the matching trend label and the price fields. -/
theorem analyze_signal_cases (sym : String) (d15 d5 d1 : DataFrame) (s : Signal)
    (h : analyze_volatility sym d15 d5 d1 = Outcome.signal s) :
    100 ≤ d15.nrows ∧ 50 ≤ d5.nrows ∧ 10 ≤ d1.nrows ∧
    s.symbol = sym ∧
    s.winrate = calculate_winrate (determine_trend (attachATR d15)).2 ∧
    s.trend = (determine_trend d15).1 ∧
    s.entry = round5 (d1.close.getLastD 0) ∧
    ((s.signal = "BUY" ∧ (determine_trend d15).1 = "Up trend" ∧
      d1.close.getLastD 0 > resistanceD d15 + bufferD d15 ∧
      s.sl = round5 (d1.close.getLastD 0 - atrLastOf d5 * 3) ∧
      s.tp1 = round5 (d1.close.getLastD 0 + atrLastOf d15 * 1) ∧
      s.tp2 = round5 (d1.close.getLastD 0 + atrLastOf d15 * 2)) ∨
     (s.signal = "SELL" ∧ (determine_trend d15).1 = "Down trend" ∧
      d1.close.getLastD 0 < supportD d15 - bufferD d15 ∧
      s.sl = round5 (d1.close.getLastD 0 + atrLastOf d5 * 3) ∧
      s.tp1 = round5 (d1.close.getLastD 0 - atrLastOf d15 * 1) ∧
      s.tp2 = round5 (d1.close.getLastD 0 - atrLastOf d15 * 2))) := by
  by_cases g15 : d15.nrows < 100
  · simp [analyze_volatility, g15] at h
  by_cases g5 : d5.nrows < 50
  · simp [analyze_volatility, g15, g5] at h
  by_cases g1 : d1.nrows < 10
  · simp [analyze_volatility, g15, g5, g1] at h
  have htr : (determine_trend (attachATR d15)).1 = (determine_trend d15).1 :=
    determine_trend_fst _ _ rfl
  simp only [analyze_volatility, if_neg g15, if_neg g5, if_neg g1,
    supportD_attach, resistanceD_attach, bufferD_attach, htr] at h
  split_ifs at h with hb hs
  · rw [Outcome.signal.injEq] at h
    subst h
    exact ⟨by omega, by omega, by omega, rfl, rfl, rfl, rfl,
      Or.inl ⟨rfl, hb.2, hb.1, rfl, rfl, rfl⟩⟩
  · rw [Outcome.signal.injEq] at h
    subst h
    exact ⟨by omega, by omega, by omega, rfl, rfl, rfl, rfl,
      Or.inr ⟨rfl, hs.2, hs.1, rfl, rfl, rfl⟩⟩

/-- C1: with all three length checks passed, a BUY signal is emitted iff
the last entry close exceeds `resistance + buffer` and the trend label is
"Up trend"; a SELL signal is emitted iff the last entry close is below
`support - buffer` and the trend label is "Down trend"; in every other
case the analysis returns the no-opportunity outcome, not an error. -/
theorem C1_breakout_rule (sym : String) (d15 d5 d1 : DataFrame)
    (h15 : 100 ≤ d15.nrows) (h5 : 50 ≤ d5.nrows) (h1 : 10 ≤ d1.nrows) :
    ((analyze_volatility sym d15 d5 d1).direction? = some "BUY" ↔
      (d1.close.getLastD 0 > resistanceD d15 + bufferD d15 ∧
       (determine_trend d15).1 = "Up trend")) ∧
    ((analyze_volatility sym d15 d5 d1).direction? = some "SELL" ↔
      (d1.close.getLastD 0 < supportD d15 - bufferD d15 ∧
       (determine_trend d15).1 = "Down trend")) ∧
    (¬(d1.close.getLastD 0 > resistanceD d15 + bufferD d15 ∧
       (determine_trend d15).1 = "Up trend") →
     ¬(d1.close.getLastD 0 < supportD d15 - bufferD d15 ∧
       (determine_trend d15).1 = "Down trend") →
     analyze_volatility sym d15 d5 d1 = Outcome.noOpportunity) := by
  have g15 : ¬ d15.nrows < 100 := by omega
  have g5 : ¬ d5.nrows < 50 := by omega
  have g1 : ¬ d1.nrows < 10 := by omega
  have htr : (determine_trend (attachATR d15)).1 = (determine_trend d15).1 :=
    determine_trend_fst _ _ rfl
  simp only [analyze_volatility, if_neg g15, if_neg g5, if_neg g1,
    supportD_attach, resistanceD_attach, bufferD_attach, htr]
  by_cases hb : d1.close.getLastD 0 > resistanceD d15 + bufferD d15 ∧
      (determine_trend d15).1 = "Up trend"
  · rw [if_pos hb]
    refine ⟨⟨fun _ => hb, fun _ => rfl⟩, ⟨fun hx => ?_, fun hx => ?_⟩, fun hnb _ => absurd hb hnb⟩
    · simp [Outcome.direction?] at hx
    · exact absurd (hb.2.symm.trans hx.2) (by decide)
  · rw [if_neg hb]
    by_cases hs : d1.close.getLastD 0 < supportD d15 - bufferD d15 ∧
        (determine_trend d15).1 = "Down trend"
    · rw [if_pos hs]
      refine ⟨⟨fun hx => ?_, fun hx => ?_⟩, ⟨fun _ => hs, fun _ => rfl⟩, fun _ hns => absurd hs hns⟩
      · simp [Outcome.direction?] at hx
      · exact absurd (hx.2.symm.trans hs.2) (by decide)
    · rw [if_neg hs]
      exact ⟨⟨fun hx => by simp [Outcome.direction?] at hx, fun hx => absurd hx hb⟩,
        ⟨fun hx => by simp [Outcome.direction?] at hx, fun hx => absurd hx hs⟩,
        fun _ _ => rfl⟩

set_option maxRecDepth 10000 in
/-- Witness for C1 at concrete flat series: all length checks pass,
neither breakout condition holds (the last entry close equals the band),
and the analysis returns the no-opportunity outcome. -/
theorem C1_breakout_rule_witness :
    analyze_volatility "V100" (flat 100 1) (flat 50 1) (flat 10 1) = Outcome.noOpportunity := by
  have h := C1_breakout_rule "V100" (flat 100 1) (flat 50 1) (flat 10 1)
    (by decide) (by decide) (by decide)
  exact h.2.2 (of_decide_eq_true (by with_unfolding_all rfl))
    (of_decide_eq_true (by with_unfolding_all rfl))

/-- The concrete signal produced on completely flat series: a SELL at the
last entry close 1/2, with zero ATRs collapsing all price levels. -/
def flatSellSig : Signal :=
  ⟨"V100", "SELL", "0.0%", "Down trend", 1/2, 1/2, 1/2, 1/2⟩

/-- C2: every produced signal carries `entry = round5 lastClose`; a BUY
has `stopLoss = round5 (entry - 3*atrRisk)`, `takeProfit1 =
round5 (entry + atrTarget)`, `takeProfit2 = round5 (entry + 2*atrTarget)`
with `atrRisk` the latest ATR(14) of the 5m risk series and `atrTarget`
the latest ATR(14) of the 15m trend series; a SELL mirrors the signs.
All four price fields are rounded to 5 fractional digits. -/
theorem C2_price_levels (sym : String) (d15 d5 d1 : DataFrame) (s : Signal)
    (h : analyze_volatility sym d15 d5 d1 = Outcome.signal s) :
    (s.signal = "BUY" ∨ s.signal = "SELL") ∧
    s.entry = round5 (d1.close.getLastD 0) ∧
    (s.signal = "BUY" →
      s.sl = round5 (d1.close.getLastD 0 - 3 * atrLastOf d5) ∧
      s.tp1 = round5 (d1.close.getLastD 0 + atrLastOf d15) ∧
      s.tp2 = round5 (d1.close.getLastD 0 + 2 * atrLastOf d15)) ∧
    (s.signal = "SELL" →
      s.sl = round5 (d1.close.getLastD 0 + 3 * atrLastOf d5) ∧
      s.tp1 = round5 (d1.close.getLastD 0 - atrLastOf d15) ∧
      s.tp2 = round5 (d1.close.getLastD 0 - 2 * atrLastOf d15)) := by
  obtain ⟨-, -, -, -, -, -, hent, hcase⟩ := analyze_signal_cases sym d15 d5 d1 s h
  rcases hcase with ⟨hsig, -, -, hsl, htp1, htp2⟩ | ⟨hsig, -, -, hsl, htp1, htp2⟩
  · refine ⟨Or.inl hsig, hent, fun _ => ⟨?_, ?_, ?_⟩, fun hx => absurd (hsig.symm.trans hx) (by decide)⟩
    · rw [hsl]; exact congrArg round5 (by ring)
    · rw [htp1]; exact congrArg round5 (by ring)
    · rw [htp2]; exact congrArg round5 (by ring)
  · refine ⟨Or.inr hsig, hent, fun hx => absurd (hsig.symm.trans hx) (by decide), fun _ => ⟨?_, ?_, ?_⟩⟩
    · rw [hsl]; exact congrArg round5 (by ring)
    · rw [htp1]; exact congrArg round5 (by ring)
    · rw [htp2]; exact congrArg round5 (by ring)

set_option maxRecDepth 10000 in
/-- Witness for C2: on flat series the engine emits the concrete SELL
signal `flatSellSig`, and its price fields satisfy the SELL formulas. -/
theorem C2_price_levels_witness :
    flatSellSig.entry = round5 ((flat 10 (1/2)).close.getLastD 0) ∧
    flatSellSig.sl = round5 ((flat 10 (1/2)).close.getLastD 0 + 3 * atrLastOf (flat 50 1)) ∧
    flatSellSig.tp1 = round5 ((flat 10 (1/2)).close.getLastD 0 - atrLastOf (flat 100 1)) ∧
    flatSellSig.tp2 = round5 ((flat 10 (1/2)).close.getLastD 0 - 2 * atrLastOf (flat 100 1)) := by
  have h := C2_price_levels "V100" (flat 100 1) (flat 50 1) (flat 10 (1/2)) flatSellSig
    (of_decide_eq_true (by with_unfolding_all rfl))
  exact ⟨h.2.1, (h.2.2.2 rfl).1, (h.2.2.2 rfl).2.1, (h.2.2.2 rfl).2.2⟩

theorem getLast?_cons_ne {α : Type} (b : α) (l : List α) (h : l ≠ []) :
    (b :: l).getLast? = l.getLast? := by
  cases l with
  | nil => exact absurd rfl h
  | cons c m => exact List.getLast?_cons_cons

theorem emaScan_ne_nil (a e : ℚ) (l : List ℚ) : emaScan a e l ≠ [] := by
  cases l <;> simp [emaScan]

/-- The last intermediate EMA value is the EMA of the whole list. -/
theorem emaScan_getLast? (a : ℚ) (l : List ℚ) :
    ∀ e, (emaScan a e l).getLast? = some (emaFrom a e l) := by
  induction l with
  | nil => intro e; rfl
  | cons x xs ih =>
      intro e
      rw [emaScan, emaFrom, getLast?_cons_ne _ _ (emaScan_ne_nil _ _ _)]
      exact ih _

/-- Characterisation of the most recent EMA value: when the series is at
least as long as the period, it is the recurrence value seeded with the
simple average of the first `w` entries and run over the remaining
entries. -/
theorem emaLast_eq (xs : List ℚ) (w : ℕ) (hw : w ≠ 0) (h : w ≤ xs.length) :
    emaLast xs w =
      some (emaFrom (2 / ((w : ℚ) + 1)) ((xs.take w).sum / (w : ℚ)) (xs.drop w)) := by
  have hc : ¬(xs.length < w ∨ w = 0) := by omega
  simp only [emaLast, lastCell, emaSeries]
  rw [if_neg hc, List.getLast?_append, List.getLast?_map, emaScan_getLast?]
  rfl

/-- C5: the trend classifier returns "N/A" when the series has fewer
than 50 candles; otherwise the most recent EMA(close, 20) and
EMA(close, 50) values exist and the label is "Up trend" exactly when the
former is strictly greater, "Down trend" otherwise — never "N/A". -/
theorem C5_trend_classifier (d : DataFrame) :
    (d.close.length < 50 → (determine_trend d).1 = "N/A") ∧
    (50 ≤ d.close.length →
      ∃ a b, emaLast d.close 20 = some a ∧ emaLast d.close 50 = some b ∧
        (determine_trend d).1 = (if a > b then "Up trend" else "Down trend") ∧
        (determine_trend d).1 ≠ "N/A") := by
  constructor
  · intro h
    simp [determine_trend, h]
  · intro h
    have h20 := emaLast_eq d.close 20 (by omega) (by omega)
    have h50 := emaLast_eq d.close 50 (by omega) (by omega)
    refine ⟨_, _, h20, h50, ?_, ?_⟩ <;>
      rw [show (determine_trend d).1 =
            (if gtCell (emaLast d.close 20) (emaLast d.close 50) then "Up trend"
             else "Down trend") by
          simp [determine_trend, not_lt.mpr h, emaLast, lastCell], h20, h50]
    · by_cases hab : emaFrom (2 / ((50:ℚ) + 1)) ((d.close.take 50).sum / (50:ℚ)) (d.close.drop 50)
          < emaFrom (2 / ((20:ℚ) + 1)) ((d.close.take 20).sum / (20:ℚ)) (d.close.drop 20) <;>
        simp [gtCell, hab, gt_iff_lt]
    · by_cases hab : emaFrom (2 / ((50:ℚ) + 1)) ((d.close.take 50).sum / (50:ℚ)) (d.close.drop 50)
          < emaFrom (2 / ((20:ℚ) + 1)) ((d.close.take 20).sum / (20:ℚ)) (d.close.drop 20) <;>
        simp [gtCell, hab]

set_option maxRecDepth 10000 in
/-- Witness for C5: a 7-candle series is classified "N/A"; a 50-candle
flat series has both EMA values defined and is labelled by their
comparison. -/
theorem C5_trend_classifier_witness :
    (determine_trend (flat 7 1)).1 = "N/A" ∧
    (∃ a b, emaLast (flat 50 1).close 20 = some a ∧ emaLast (flat 50 1).close 50 = some b ∧
      (determine_trend (flat 50 1)).1 = (if a > b then "Up trend" else "Down trend") ∧
      (determine_trend (flat 50 1)).1 ≠ "N/A") :=
  ⟨(C5_trend_classifier (flat 7 1)).1 (by decide),
   (C5_trend_classifier (flat 50 1)).2 (by decide)⟩

/-- C7: a 99-candle trend series aborts with the insufficient-data
outcome; a 100-candle trend series together with risk and entry series
meeting their minimums is analyzable (the outcome is never the
insufficient-data abort); and whenever any series fails its own
minimum-length requirement the outcome is the typed insufficient-data
abort, not an exception. -/
theorem C7_thresholds (sym : String) (d15 d5 d1 : DataFrame) :
    (d15.nrows = 99 → analyze_volatility sym d15 d5 d1 = Outcome.insufficientData "15m") ∧
    (d15.nrows = 100 → 50 ≤ d5.nrows → 10 ≤ d1.nrows →
      (analyze_volatility sym d15 d5 d1).isInsufficientData = false) ∧
    ((d15.nrows < 100 ∨ d5.nrows < 50 ∨ d1.nrows < 10) →
      (analyze_volatility sym d15 d5 d1).isInsufficientData = true) := by
  refine ⟨fun h99 => ?_, fun h100 h5 h1 => ?_, fun hdis => ?_⟩
  · have : d15.nrows < 100 := by omega
    simp [analyze_volatility, this]
  · have g15 : ¬ d15.nrows < 100 := by omega
    have g5 : ¬ d5.nrows < 50 := by omega
    have g1 : ¬ d1.nrows < 10 := by omega
    simp only [analyze_volatility, if_neg g15, if_neg g5, if_neg g1]
    split_ifs <;> rfl
  · by_cases g15 : d15.nrows < 100
    · simp [analyze_volatility, g15, Outcome.isInsufficientData]
    by_cases g5 : d5.nrows < 50
    · simp [analyze_volatility, g15, g5, Outcome.isInsufficientData]
    by_cases g1 : d1.nrows < 10
    · simp [analyze_volatility, g15, g5, g1, Outcome.isInsufficientData]
    omega

/-- Witness for C7: a 99-candle flat trend series yields the typed
insufficient-data outcome, while the same analysis with 100 candles does
not abort. -/
theorem C7_thresholds_witness :
    analyze_volatility "V100" (flat 99 1) (flat 50 1) (flat 10 1) =
      Outcome.insufficientData "15m" ∧
    (analyze_volatility "V100" (flat 100 1) (flat 50 1) (flat 10 1)).isInsufficientData
      = false :=
  ⟨(C7_thresholds "V100" (flat 99 1) (flat 50 1) (flat 10 1)).1 (by decide),
   (C7_thresholds "V100" (flat 100 1) (flat 50 1) (flat 10 1)).2.1
     (by decide) (by decide) (by decide)⟩

/-- C9: the analysis is a pure function of the candle data: two frame
triples that agree on the price columns the engine reads (high, low and
close of the trend and risk series, close of the entry series) produce
identical outcomes, whatever stale indicator columns the frames carry. -/
theorem C9_deterministic (sym : String) (d15 e15 d5 e5 d1 e1 : DataFrame)
    (hh15 : d15.high = e15.high) (hl15 : d15.low = e15.low) (hc15 : d15.close = e15.close)
    (hh5 : d5.high = e5.high) (hl5 : d5.low = e5.low) (hc5 : d5.close = e5.close)
    (hc1 : d1.close = e1.close) :
    analyze_volatility sym d15 d5 d1 = analyze_volatility sym e15 e5 e1 := by
  have hn15 : d15.nrows = e15.nrows := by unfold DataFrame.nrows; rw [hc15]
  have hn5 : d5.nrows = e5.nrows := by unfold DataFrame.nrows; rw [hc5]
  have hn1 : d1.nrows = e1.nrows := by unfold DataFrame.nrows; rw [hc1]
  have hatr5 : lastCellD (attachATR d5).atr = lastCellD (attachATR e5).atr := by
    show lastCellD (some (atrSeries d5.high d5.low d5.close 14)) =
      lastCellD (some (atrSeries e5.high e5.low e5.close 14))
    rw [hh5, hl5, hc5]
  have hatr15 : lastCellD (attachATR d15).atr = lastCellD (attachATR e15).atr := by
    show lastCellD (some (atrSeries d15.high d15.low d15.close 14)) =
      lastCellD (some (atrSeries e15.high e15.low e15.close 14))
    rw [hh15, hl15, hc15]
  have hsup : supportD (attachATR d15) = supportD (attachATR e15) := by
    show (rollingMinLast d15.low 50).getD 0 = (rollingMinLast e15.low 50).getD 0
    rw [hl15]
  have hres : resistanceD (attachATR d15) = resistanceD (attachATR e15) := by
    show (rollingMaxLast d15.high 50).getD 0 = (rollingMaxLast e15.high 50).getD 0
    rw [hh15]
  have hbuf : bufferD (attachATR d15) = bufferD (attachATR e15) := by
    unfold bufferD; rw [hsup, hres]
  have htr : (determine_trend (attachATR d15)).1 = (determine_trend (attachATR e15)).1 :=
    determine_trend_fst _ _ (by rw [attachATR_close, attachATR_close, hc15])
  have hwr : calculate_winrate (determine_trend (attachATR d15)).2 =
      calculate_winrate (determine_trend (attachATR e15)).2 :=
    calculate_winrate_close _ _
      (by rw [determine_trend_snd_close, determine_trend_snd_close,
              attachATR_close, attachATR_close, hc15])
  have hlc : d1.close.getLastD 0 = e1.close.getLastD 0 := by rw [hc1]
  simp only [analyze_volatility]
  rw [hn15, hn5, hn1, hatr5, hatr15, hsup, hres, hbuf, htr, hwr, hlc]

/-- A 50-candle flat risk series carrying a stale (empty) EMA20 indicator
column: same candle data as `flat 50 1`, different frame object. -/
def flat50stale : DataFrame :=
  ⟨List.replicate 50 1, List.replicate 50 1, List.replicate 50 1,
   some [], none, none, by simp, by simp⟩

/-- Witness for C9: swapping the risk frame for one with identical candle
data but a stale indicator column leaves the outcome unchanged. -/
theorem C9_deterministic_witness :
    analyze_volatility "V100" (flat 100 1) (flat 50 1) (flat 10 1) =
      analyze_volatility "V100" (flat 100 1) flat50stale (flat 10 1) :=
  C9_deterministic "V100" (flat 100 1) (flat 100 1) (flat 50 1) flat50stale
    (flat 10 1) (flat 10 1) rfl rfl rfl rfl rfl rfl rfl

theorem append_percent_ne_NA (s : String) : s ++ "%" ≠ "N/A" := by
  intro h
  have h2 : (s ++ "%").data.getLast? = ("N/A" : String).data.getLast? := by rw [h]
  rw [String.data_append, show ("%" : String).data = [Char.ofNat 37] from rfl,
    List.getLast?_concat] at h2
  exact absurd h2 (by decide)

/-- The formatted win-rate string always ends in a percent sign, so it is
never the "N/A" marker. -/
theorem winrateCore_ne_NA (xs : List ℚ) : winrateCore xs ≠ "N/A" :=
  append_percent_ne_NA _

/-- C10: every produced signal carries a trend label that is never "N/A"
and agrees with its direction ("Up trend" on BUY, "Down trend" on SELL),
and a win-rate that is never the "N/A" marker, because signals only
appear after the 100-candle check and under a matching trend condition. -/
theorem C10_signal_context (sym : String) (d15 d5 d1 : DataFrame) (s : Signal)
    (h : analyze_volatility sym d15 d5 d1 = Outcome.signal s) :
    s.trend ≠ "N/A" ∧
    (s.signal = "BUY" → s.trend = "Up trend") ∧
    (s.signal = "SELL" → s.trend = "Down trend") ∧
    s.winrate ≠ "N/A" := by
  obtain ⟨h100, -, -, -, hwr, htr, -, hcase⟩ := analyze_signal_cases sym d15 d5 d1 s h
  have hn : ((determine_trend (attachATR d15)).2).nrows = d15.nrows := by
    unfold DataFrame.nrows
    rw [determine_trend_snd_close, attachATR_close]
  have hwrNA : s.winrate ≠ "N/A" := by
    rw [hwr]
    unfold calculate_winrate
    rw [if_neg (by omega : ¬ ((determine_trend (attachATR d15)).2).nrows < 100)]
    exact winrateCore_ne_NA _
  rcases hcase with ⟨hsig, hup, -⟩ | ⟨hsig, hdn, -⟩
  · exact ⟨by rw [htr.trans hup]; decide, fun _ => htr.trans hup,
      fun hx => absurd (hsig.symm.trans hx) (by decide), hwrNA⟩
  · exact ⟨by rw [htr.trans hdn]; decide,
      fun hx => absurd (hsig.symm.trans hx) (by decide), fun _ => htr.trans hdn, hwrNA⟩

set_option maxRecDepth 10000 in
/-- Witness for C10: the flat-series SELL signal carries the "Down trend"
label and a win-rate distinct from "N/A". -/
theorem C10_signal_context_witness :
    flatSellSig.trend ≠ "N/A" ∧ flatSellSig.trend = "Down trend" ∧
    flatSellSig.winrate ≠ "N/A" := by
  have h := C10_signal_context "V100" (flat 100 1) (flat 50 1) (flat 10 (1/2)) flatSellSig
    (of_decide_eq_true (by with_unfolding_all rfl))
  exact ⟨h.1, h.2.2.1 rfl, h.2.2.2⟩

theorem trueRangesAux_nonneg (l : List (ℚ × ℚ × ℚ)) :
    ∀ pc x, x ∈ trueRangesAux pc l → 0 ≤ x := by
  induction l with
  | nil =>
      intro pc x hx
      simp [trueRangesAux] at hx
  | cons p rest ih =>
      intro pc x hx
      obtain ⟨hh, ll, cc⟩ := p
      rw [trueRangesAux] at hx
      rcases List.mem_cons.mp hx with hEq | hMem
      · rw [hEq]
        exact le_trans (abs_nonneg (hh - pc)) (le_trans (le_max_left _ _) (le_max_right _ _))
      · exact ih cc x hMem

theorem trueRanges_nonneg (high low close : List ℚ) :
    ∀ x ∈ trueRanges high low close, 0 ≤ x := by
  intro x hx
  unfold trueRanges at hx
  split at hx
  · simp at hx
  · exact trueRangesAux_nonneg _ _ x hx

theorem ewmAdjScanAux_nonneg (a : ℚ) (ha : 0 ≤ 1 - a) :
    ∀ (xs : List ℚ) (num den : ℚ), 0 ≤ num → 0 ≤ den → (∀ x ∈ xs, 0 ≤ x) →
      ∀ v ∈ ewmAdjScanAux a num den xs, 0 ≤ v := by
  intro xs
  induction xs with
  | nil =>
      intro num den _ _ _ v hv
      simp [ewmAdjScanAux] at hv
  | cons x rest ih =>
      intro num den hn hd hxs v hv
      simp only [ewmAdjScanAux] at hv
      have hx0 : 0 ≤ x := hxs x (List.mem_cons_self x rest)
      have hn' : 0 ≤ (1 - a) * num + x := add_nonneg (mul_nonneg ha hn) hx0
      have hd' : 0 ≤ (1 - a) * den + 1 := add_nonneg (mul_nonneg ha hd) zero_le_one
      rcases List.mem_cons.mp hv with hEq | hMem
      · rw [hEq]
        exact div_nonneg hn' hd'
      · exact ih _ _ hn' hd' (fun y hy => hxs y (List.mem_cons_of_mem x hy)) v hMem

theorem lastCell_nonneg_of (col : List (Option ℚ))
    (hcol : ∀ o ∈ col, ∀ v, o = some v → 0 ≤ v) : 0 ≤ (lastCell col).getD 0 := by
  unfold lastCell
  cases hg : col.getLast? with
  | none => simp
  | some o =>
      have ho : o ∈ col := by
        rw [List.getLast?_eq_some_iff] at hg
        obtain ⟨ys, rfl⟩ := hg
        exact List.mem_append_right ys (List.mem_singleton.mpr rfl)
      cases o with
      | none => simp
      | some v => simpa using hcol _ ho v rfl

/-- The latest ATR value of any frame is nonnegative: every true range is
nonnegative and Wilder smoothing is a weighted average with nonnegative
weights. -/
theorem atrLastOf_nonneg (d : DataFrame) : 0 ≤ atrLastOf d := by
  show 0 ≤ (lastCell (atrSeries d.high d.low d.close 14)).getD 0
  apply lastCell_nonneg_of
  intro o ho v hv
  by_cases hlen : d.high.length ≤ 14
  · rw [atrSeries, if_pos hlen] at ho
    rw [List.eq_of_mem_replicate ho] at hv
    exact absurd hv (by simp)
  · simp only [atrSeries, if_neg hlen] at ho
    rcases List.mem_append.mp ho with hrep | hmap
    · rw [List.eq_of_mem_replicate hrep] at hv
      exact absurd hv (by simp)
    · obtain ⟨w, hw, hwo⟩ := List.mem_map.mp hmap
      have hv' : v = w := by rw [← hwo] at hv; exact (Option.some.inj hv).symm
      rw [hv']
      exact ewmAdjScanAux_nonneg (1 / (14:ℚ)) (by norm_num) _ 0 0 le_rfl le_rfl
        (trueRanges_nonneg _ _ _) w (List.drop_subset _ _ hw)

/-- Rounding to 5 fractional digits is monotone. -/
theorem round5_mono (a b : ℚ) (h : a ≤ b) : round5 a ≤ round5 b := by
  unfold round5
  have hfloor : (⌊a * 100000 + 1/2⌋ : ℤ) ≤ ⌊b * 100000 + 1/2⌋ :=
    Int.floor_mono (by linarith)
  have hcast : ((⌊a * 100000 + 1/2⌋ : ℤ) : ℚ) ≤ ((⌊b * 100000 + 1/2⌋ : ℤ) : ℚ) := by
    exact_mod_cast hfloor
  exact (div_le_div_iff_of_pos_right (by norm_num)).mpr hcast

set_option maxRecDepth 10000 in
/-- C3 counterexample: on completely flat series the engine produces a
SELL signal whose stop-loss, entry and take-profits all coincide (the
ATRs are zero), so the claimed strict ordering fails. -/
theorem C3_strict_ordering_counterexample :
    analyze_volatility "V100" (flat 100 1) (flat 50 1) (flat 10 (1/2)) =
      Outcome.signal flatSellSig ∧
    flatSellSig.signal = "SELL" ∧
    ¬(flatSellSig.sl > flatSellSig.entry ∧ flatSellSig.entry > flatSellSig.tp1 ∧
      flatSellSig.tp1 > flatSellSig.tp2) :=
  of_decide_eq_true (by with_unfolding_all rfl)

/-- C3 (amended): for every produced signal the non-strict ordering
`stopLoss ≤ entry ≤ takeProfit1 ≤ takeProfit2` holds on BUY and the
reversed non-strict ordering holds on SELL; strictness can fail because
the ATRs may be zero and rounding can collapse adjacent levels. -/
theorem C3_price_ordering (sym : String) (d15 d5 d1 : DataFrame) (s : Signal)
    (h : analyze_volatility sym d15 d5 d1 = Outcome.signal s) :
    (s.signal = "BUY" → s.sl ≤ s.entry ∧ s.entry ≤ s.tp1 ∧ s.tp1 ≤ s.tp2) ∧
    (s.signal = "SELL" → s.tp2 ≤ s.tp1 ∧ s.tp1 ≤ s.entry ∧ s.entry ≤ s.sl) := by
  obtain ⟨-, -, -, -, -, -, hent, hcase⟩ := analyze_signal_cases sym d15 d5 d1 s h
  have ha5 : 0 ≤ atrLastOf d5 := atrLastOf_nonneg d5
  have ha15 : 0 ≤ atrLastOf d15 := atrLastOf_nonneg d15
  rcases hcase with ⟨hsig, -, -, hsl, htp1, htp2⟩ | ⟨hsig, -, -, hsl, htp1, htp2⟩
  · refine ⟨fun _ => ⟨?_, ?_, ?_⟩, fun hx => absurd (hsig.symm.trans hx) (by decide)⟩
    · rw [hsl, hent]; exact round5_mono _ _ (by linarith)
    · rw [hent, htp1]; exact round5_mono _ _ (by linarith)
    · rw [htp1, htp2]; exact round5_mono _ _ (by linarith)
  · refine ⟨fun hx => absurd (hsig.symm.trans hx) (by decide), fun _ => ⟨?_, ?_, ?_⟩⟩
    · rw [htp2, htp1]; exact round5_mono _ _ (by linarith)
    · rw [htp1, hent]; exact round5_mono _ _ (by linarith)
    · rw [hent, hsl]; exact round5_mono _ _ (by linarith)

set_option maxRecDepth 10000 in
/-- Witness for C3 (amended): the flat-series SELL signal satisfies the
non-strict reversed ordering. -/
theorem C3_price_ordering_witness :
    flatSellSig.tp2 ≤ flatSellSig.tp1 ∧ flatSellSig.tp1 ≤ flatSellSig.entry ∧
    flatSellSig.entry ≤ flatSellSig.sl :=
  (C3_price_ordering "V100" (flat 100 1) (flat 50 1) (flat 10 (1/2)) flatSellSig
    (of_decide_eq_true (by with_unfolding_all rfl))).2 rfl

/-- Modelled from the spec's words for C4: the minimum of the lows over
the 50-bar window whose last value corresponds to the *second-to-last*
computed point of the rolling series, i.e. the window ending at the
second-to-last bar. -/
def specSupportSecondLast (xs : List ℚ) (w : ℕ) : Option ℚ :=
  if w + 1 ≤ xs.length then (xs.dropLast.drop (xs.length - 1 - w)).min? else none

/-- A 51-candle trend series whose lows are 2 everywhere except a final
low of 1: the trailing-50 window including the last bar has minimum 1,
the 50-bar window ending at the second-to-last bar has minimum 2. -/
def cf4 : DataFrame :=
  ⟨List.replicate 51 3, List.replicate 50 2 ++ [1], List.replicate 51 2,
   none, none, none, by simp, by simp⟩

set_option maxRecDepth 10000 in
/-- C4 counterexample: the code anchors the rolling window at the *last*
bar (`.iloc[-1]`), not at the second-to-last computed point: on `cf4` the
code's support is 1 while the spec-worded anchoring yields 2. -/
theorem C4_window_anchor_counterexample :
    supportD cf4 = 1 ∧ specSupportSecondLast cf4.low 50 = some 2 ∧
    some (supportD cf4) ≠ specSupportSecondLast cf4.low 50 :=
  of_decide_eq_true (by with_unfolding_all rfl)

/-- C4 (amended): for every trend series with at least 50 candles,
support is the minimum of the lows and resistance the maximum of the
highs over the trailing 50-bar window ending at the most recent bar (the
most recent complete 50-bar lookback, last bar included), and the buffer
is 0.005 times the band width. -/
theorem C4_range_detector (d : DataFrame) (h : 50 ≤ d.nrows) :
    (supportD d ∈ d.low.drop (d.low.length - 50) ∧
      ∀ x ∈ d.low.drop (d.low.length - 50), supportD d ≤ x) ∧
    (resistanceD d ∈ d.high.drop (d.high.length - 50) ∧
      ∀ x ∈ d.high.drop (d.high.length - 50), x ≤ resistanceD d) ∧
    bufferD d = 5 / 1000 * (resistanceD d - supportD d) := by
  have hlow : 50 ≤ d.low.length := by rw [d.llen]; exact h
  have hhigh : 50 ≤ d.high.length := by rw [d.hlen]; exact h
  refine ⟨?_, ?_, rfl⟩
  · unfold supportD rollingMinLast
    rw [if_pos hlow]
    cases hm : (d.low.drop (d.low.length - 50)).min? with
    | none =>
        exfalso
        rw [List.min?_eq_none_iff] at hm
        have hlen := congrArg List.length hm
        rw [List.length_drop] at hlen
        simp at hlen
        omega
    | some m =>
        simp only [Option.getD_some]
        exact ⟨List.min?_mem min_choice hm,
          fun x hx => (List.le_min?_iff (fun a b c => le_min_iff) hm).1 le_rfl x hx⟩
  · unfold resistanceD rollingMaxLast
    rw [if_pos hhigh]
    cases hm : (d.high.drop (d.high.length - 50)).max? with
    | none =>
        exfalso
        rw [List.max?_eq_none_iff] at hm
        have hlen := congrArg List.length hm
        rw [List.length_drop] at hlen
        simp at hlen
        omega
    | some m =>
        simp only [Option.getD_some]
        exact ⟨List.max?_mem max_choice hm,
          fun x hx => (List.max?_le_iff (fun a b c => max_le_iff) hm).1 le_rfl x hx⟩

set_option maxRecDepth 10000 in
/-- Witness for C4 (amended) on `cf4`: the support belongs to the
trailing 50-low window, bounds it from below, and the buffer equation
holds. -/
theorem C4_range_detector_witness :
    supportD cf4 ∈ cf4.low.drop (cf4.low.length - 50) ∧
    (∀ x ∈ cf4.low.drop (cf4.low.length - 50), supportD cf4 ≤ x) ∧
    bufferD cf4 = 5 / 1000 * (resistanceD cf4 - supportD cf4) := by
  have h := C4_range_detector cf4 (by decide)
  exact ⟨h.1.1, h.1.2, h.2.2⟩

/-- `pct_change` produces one change per consecutive pair of closes. -/
theorem pctChanges_length : ∀ xs : List ℚ, (pctChanges xs).length = xs.length - 1 := by
  intro xs
  induction xs with
  | nil => rfl
  | cons a t ih =>
      cases t with
      | nil => rfl
      | cons b r =>
          rw [pctChanges]
          simp only [List.length_cons] at ih ⊢
          omega

/-- The 7 closes of the spec's win-rate example, as a 7-candle series. -/
def ex7 : DataFrame :=
  ⟨List.replicate 7 1, List.replicate 7 1, [10, 11, 10, 12, 13, 12, 14],
   none, none, none, by simp, by simp⟩

/-- C6 counterexample: applied to the series of exactly the example's 7
closes, `calculate_winrate` returns the "N/A" marker (the series fails
the 100-candle minimum), not "66.7%". -/
theorem C6_example_counterexample :
    calculate_winrate ex7 = "N/A" ∧ calculate_winrate ex7 ≠ "66.7%" :=
  of_decide_eq_true (by with_unfolding_all rfl)

/-- C6 (amended): with fewer than 100 candles the estimator returns the
"N/A" marker; with at least 100 candles (and nonzero closes, where the
ℚ model and pandas agree) it returns the fraction of strictly positive
consecutive percentage changes over the `n - 1` defined changes as a
one-decimal percentage string; and the example closes
`[10,11,10,12,13,12,14]` yield "66.7%" from the change-fraction
computation itself, while a series of exactly those 7 closes fails the
length gate. -/
theorem C6_winrate (d : DataFrame) :
    (d.nrows < 100 → calculate_winrate d = "N/A") ∧
    (100 ≤ d.nrows → (∀ c ∈ d.close, c ≠ 0) →
      calculate_winrate d =
        fmt1 ((((pctChanges d.close).filter fun x => decide (0 < x)).length : ℚ)
          / ((d.nrows : ℚ) - 1) * 100) ++ "%") ∧
    winrateCore [10, 11, 10, 12, 13, 12, 14] = "66.7%" := by
  refine ⟨fun hlt => ?_, fun hge _ => ?_, ?_⟩
  · unfold calculate_winrate
    rw [if_pos hlt]
  · unfold calculate_winrate
    rw [if_neg (by omega)]
    show fmt1 ((((pctChanges d.close).filter fun x => decide (0 < x)).length : ℚ)
        / ((pctChanges d.close).length : ℚ) * 100) ++ "%" = _
    have hlen : (((pctChanges d.close).length : ℚ)) = (d.nrows : ℚ) - 1 := by
      rw [pctChanges_length]
      have h1 : 1 ≤ d.nrows := by unfold DataFrame.nrows at hge ⊢; omega
      unfold DataFrame.nrows at h1 ⊢
      push_cast [Nat.cast_sub h1]
      ring
    rw [hlen]
  · exact of_decide_eq_true (by with_unfolding_all rfl)

set_option maxRecDepth 10000 in
/-- Witness for C6 on a flat 100-candle series: no change is positive and
the estimator returns the formatted zero fraction. -/
theorem C6_winrate_witness :
    calculate_winrate (flat 100 1) =
      fmt1 ((((pctChanges (flat 100 1).close).filter fun x => decide (0 < x)).length : ℚ)
        / (((flat 100 1).nrows : ℚ) - 1) * 100) ++ "%" :=
  (C6_winrate (flat 100 1)).2.1 (by decide) (of_decide_eq_true (by with_unfolding_all rfl))

set_option maxRecDepth 10000 in
/-- C8 counterexample: `determine_trend` does not leave its input frame
unchanged — on a 50-candle series it attaches the EMA20/EMA50 columns in
place, so the frame it leaves behind differs from the input. -/
theorem C8_mutation_counterexample : (determine_trend (flat 50 1)).2 ≠ flat 50 1 := by
  intro h
  exact absurd (congrArg DataFrame.ema20 h) (of_decide_eq_true (by with_unfolding_all rfl))

/-- C8 (amended): computing indicators mutates the frame only by
attaching indicator columns: the OHLC candle data is never modified, and
the trend label and win-rate are pure functions of the close column. -/
theorem C8_ohlc_preserved (d e : DataFrame) :
    ((determine_trend d).2).high = d.high ∧ ((determine_trend d).2).low = d.low ∧
    ((determine_trend d).2).close = d.close ∧
    (attachATR d).high = d.high ∧ (attachATR d).low = d.low ∧
    (attachATR d).close = d.close ∧
    (d.close = e.close → (determine_trend d).1 = (determine_trend e).1) ∧
    (d.close = e.close → calculate_winrate d = calculate_winrate e) :=
  ⟨determine_trend_snd_high d, determine_trend_snd_low d, determine_trend_snd_close d,
   rfl, rfl, rfl, determine_trend_fst d e, calculate_winrate_close d e⟩

/-- Witness for C8 (amended): on a concrete 50-candle frame the mutated
frame keeps its close column, and a stale indicator column does not
change the trend label. -/
theorem C8_ohlc_preserved_witness :
    ((determine_trend (flat 50 1)).2).close = (flat 50 1).close ∧
    (determine_trend (flat 50 1)).1 = (determine_trend flat50stale).1 :=
  ⟨(C8_ohlc_preserved (flat 50 1) flat50stale).2.2.1,
   (C8_ohlc_preserved (flat 50 1) flat50stale).2.2.2.2.2.2.1 rfl⟩

end Tale
